import Mathlib

/-!
Shallow embedding of the nixvm expression compiler (`src/src/lib.rs`).

The program translates a parsed Nix expression tree (rnix AST) into
Cranelift IR inside a JIT module and runs the resulting `main` function.
We embed:

* the AST shape the translator consumes (`Expr`, with the `Option`s of the
  fallible rnix accessors kept explicit);
* the Cranelift `FunctionBuilder` state (`BState`: emitted instructions,
  declared frontend variables, SSA variable definitions);
* the module-level state (`CState`: declared/defined data objects, the
  shared `DataContext`, the shared variable map and slot counter, and the
  lambda functions built so far);
* the translator `compile_expression` / `compile_literal` /
  `declare_variable` (names kept from the source), and the driver
  `Compiler::compile` as `compileProgram`;
* the value typing rules and the IR verifier (`instType` / `verifyMain`)
  that `define_function` runs on `main` — Cranelift's `enable_verifier`
  flag defaults to true, so an ill-typed `main` (for instance one
  returning an `icmp` result, of type b1/i8, against the declared I64
  return) is rejected before anything executes;
* an evaluator for the emitted straight-line instruction sequence
  (`evalInsts` / `runProgram`), with `udiv` by zero modelled as a trap
  (`none`), following Cranelift's documented instruction semantics.

At run time machine values are 64-bit bit patterns (`Nat` together with
reductions `% 18446744073709551616`, i.e. mod 2^64); only programs the
verifier accepted are ever run.  An IR `Value` is the index of
the instruction that produced it in the function's instruction list.
String bytes are kept as `String` (Rust's `String::into_bytes` is the
UTF-8 encoding, which is injective, so nothing is lost).
-/

/-- Binary operator kinds consumed by the translator (`rnix::ast::BinOpKind`).
`unsupported` stands for every kind that falls into the source's catch-all
`_ => Err("unknown operator ...")` arm (Concat, Update, Implication, ...). -/
inductive BinOpKind where
  | add | sub | mul | div
  | less | lessOrEq | more | moreOrEq
  | equal | notEqual
  | and | or
  | unsupported
deriving DecidableEq, Repr

/-- Literal kinds (`rnix::ast::LiteralKind`).  `integer (some n)` is an
integer token whose `value()` parsed to the i64 `n`; `integer none` is a
token whose parse fails (`integer.value()?` propagates the error).  A float
literal is carried as the IEEE-754 bit pattern of its f64 value.
`unsupported` covers the source's `_ => Err("unknown literal type ...")`. -/
inductive LiteralKind where
  | integer (value : Option Int)
  | float (bits : Option Nat)
  | unsupported
deriving DecidableEq, Repr

/-- One attribute of an attrpath (`rnix::ast::Attr`).  `ident` and `str`
carry the text produced by the source's `.to_string()` on the node;
`dynamic` stands for every other kind (the source's `_ => "".to_string()`). -/
inductive Attr where
  | ident (text : String)
  | str (text : String)
  | dynamic
deriving DecidableEq, Repr

mutual
/-- The expression tree shape consumed by `compile_expression`
(`rnix::ast::Expr`).  Each `Option` mirrors a fallible rnix accessor the
source guards with `.context(...)?` (`lambda.param()`, `lambda.body()`,
`let_in.body()`, `op.lhs()`, `op.rhs()`, `op.operator()`,
`interpolation.expr()`, ...).  `unknown` covers the catch-all
`_ => Err("unknown expression ...")` arm. -/
inductive Expr where
  | lambda (param : Option Unit) (body : Option Expr)
  | ident (name : String)
  | letIn (bindings : List AttrpathValue) (body : Option Expr)
  | binOp (op : Option BinOpKind) (lhs : Option Expr) (rhs : Option Expr)
  | lit (kind : LiteralKind)
  | str (parts : List StrPart)
  | unknown

/-- One `attrpath = value;` entry of a `let ... in` (`ast::AttrpathValue`):
the attribute path (`value.attrpath()`) and the bound expression
(`value.value()`). -/
inductive AttrpathValue where
  | mk (path : Option (List Attr)) (value : Option Expr)

/-- One normalized part of a string literal (`ast::InterpolPart`). -/
inductive StrPart where
  | literal (text : String)
  | interpolation (e : Option Expr)
end

/-- Cranelift condition codes used by the translator (`IntCC`). -/
inductive IntCC where
  | signedLessThan | signedLessThanOrEqual
  | signedGreaterThan | signedGreaterThanOrEqual
  | equal | notEqual
deriving DecidableEq, Repr

/-- The Cranelift IR instructions the translator emits.  Operands are
`Value` indices (positions in the function's instruction list).
`funcParam` is the entry-block parameter created by
`append_block_params_for_function_params` for a lambda's single I64
parameter (a block parameter is a `Value` like any other; we keep it at
position 0 of the lambda's list). -/
inductive Inst where
  | funcParam
  | iconst (n : Int)
  | f64const (bits : Nat)
  | iadd (a b : Nat)
  | isub (a b : Nat)
  | imul (a b : Nat)
  | udiv (a b : Nat)
  | icmp (cc : IntCC) (a b : Nat)
  | band (a b : Nat)
  | bor (a b : Nat)
  | symbolValue (dataId : Nat)
deriving DecidableEq, Repr

/-- A finalized IR function built through a `FunctionBuilder`: its
`UserFuncName::testcase` name, its instruction list, and the `Value`
returned by its single `return_` instruction. -/
structure Func where
  name : String
  insts : List Inst
  ret : Nat
deriving DecidableEq, Repr

/-- Per-`FunctionBuilder` state: the instructions emitted so far into the
(single, sealed) block, the frontend `Variable`s whose type was registered
with `declare_var` in *this* builder, the SSA definitions recorded by
`def_var` (most recent first), and — as an observer for Cranelift's
debug assertion — the `def_var` calls whose variable was not declared in
this builder (each such call panics in a debug build and is recorded
silently in a release build). -/
structure BState where
  insts : List Inst
  declaredVars : List Nat
  varDefs : List (Nat × Nat)
  undeclaredDefs : List Nat
deriving DecidableEq, Repr

/-- Module-plus-session state shared across the whole translation:
`sampleIdx` counts the `SystemTime::now().elapsed()` samplings performed so
far; `dataDecls` are the symbol names passed to `module.declare_data` (a
`DataId` is the index of its name's first occurrence — Cranelift merges
re-declarations of the same name); `dataDefs` are the objects actually
defined by `module.define_data` (id, bytes); `dataCtx` is the shared
`DataContext`'s current contents; `builtFuncs` records the lambda functions
constructed (the source builds each one and then drops it without
registering it in the module — we keep it observable); `variableIndex` and
`varMap` (the source field `variables`) are the shared slot counter and name→`Variable` map of
`Compiler`. -/
structure CState where
  sampleIdx : Nat
  dataDecls : List String
  dataDefs : List (Nat × String)
  dataCtx : String
  builtFuncs : List Func
  variableIndex : Nat
  varMap : List (String × Nat)
deriving DecidableEq, Repr

/-- Append an instruction; its `Value` is its position. -/
def emitInst (i : Inst) (bst : BState) : Nat × BState :=
  (bst.insts.length, { bst with insts := bst.insts ++ [i] })

/-- `declare_variable` from `src/src/lib.rs:25`: builds
`Variable::new(*index)` *first*; only when the name is absent does it
insert it, register the type with `declare_var`, and bump the counter.
Note that when the name is already present the returned variable is the
one freshly built from the *current* counter, not the variable stored in
the map.  (The `int` type argument is always the pointer-sized integer
type I64 and is not modelled.) -/
def declare_variable (cst : CState) (bst : BState) (name : String) :
    Nat × CState × BState :=
  let var := cst.variableIndex
  if (cst.varMap.lookup name).isSome then
    (var, cst, bst)
  else
    (var,
     { cst with varMap := (name, var) :: cst.varMap
                variableIndex := var + 1 },
     { bst with declaredVars := bst.declaredVars ++ [var] })

/-- `FunctionBuilder::def_var`: records the SSA definition.  Cranelift
checks (by a debug assertion) that the variable's type was declared in this
builder; in a release build an undeclared variable is recorded like any
other, which we observe through `undeclaredDefs`. -/
def def_var (bst : BState) (var val : Nat) : BState :=
  { bst with
      varDefs := (var, val) :: bst.varDefs
      undeclaredDefs :=
        if bst.declaredVars.contains var then bst.undeclaredDefs
        else bst.undeclaredDefs ++ [var] }

/-- `FunctionBuilder::use_var`: panics when the variable's type was never
declared in this builder (modelled as an error value, since the panic
aborts the compilation); otherwise resolves to the most recent `def_var`
value in the single sealed block. -/
def use_var (bst : BState) (var : Nat) : Except String Nat :=
  if bst.declaredVars.contains var then
    match bst.varDefs.find? (fun p => p.1 == var) with
    | some p => .ok p.2
    | none => .error "panicked: variable used before it was defined"
  else .error "panicked: variable declared in another function builder"

/-- `compile_literal` from `src/src/lib.rs:41`: integers become
`iconst I64`, floats become `f64const`, anything else is
`unknown literal type`. -/
def compile_literal (kind : LiteralKind) (bst : BState) :
    Except String (Nat × BState) :=
  match kind with
  | .integer (some n) => .ok (emitInst (.iconst n) bst)
  | .integer none => .error "failed to parse integer literal"
  | .float (some bits) => .ok (emitInst (.f64const bits) bst)
  | .float none => .error "failed to parse float literal"
  | .unsupported => .error "unknown literal type"

/-- `module.declare_data(name, Linkage::Export, false, false)`: Cranelift
merges re-declarations of one symbol name (same linkage and flags here), so
the returned `DataId` is the index of the name's first occurrence; a new
name is appended. -/
def declare_data (cst : CState) (name : String) : Nat × CState :=
  match cst.dataDecls.findIdx? (fun n => n == name) with
  | some i => (i, cst)
  | none => (cst.dataDecls.length,
             { cst with dataDecls := cst.dataDecls ++ [name] })

/-- `module.define_data(id, &data_context)`: rejected with
`DuplicateDefinition` when the object was already defined (the source wraps
this as "failed to define data"); otherwise the `DataContext` contents
become the object's bytes. -/
def define_data (cst : CState) (id : Nat) : Except String CState :=
  if cst.dataDefs.any (fun p => p.1 == id) then
    .error "failed to define data"
  else
    .ok { cst with dataDefs := cst.dataDefs ++ [(id, cst.dataCtx)] }

/-- The constant-data emission path of the `Expr::Str` arm
(`src/src/lib.rs:277`): `data_context.define(bytes)`, declare the data
object — always under the symbol name `"string"` with `Linkage::Export` —
define it, clear the context, `finalize_definitions` (never fails for data
in this model), then materialize the object's address in the current
function with `symbol_value`. -/
def emitData (s : String) (cst : CState) (bst : BState) :
    Except String (Option Nat × CState × BState) :=
  let cst1 := { cst with dataCtx := s }
  let (dataId, cst2) := declare_data cst1 "string"
  match define_data cst2 dataId with
  | .error e => .error e
  | .ok cst3 =>
    let cst4 := { cst3 with dataCtx := "" }
    let (v, bst1) := emitInst (.symbolValue dataId) bst
    .ok (some v, cst4, bst1)

/-- The happy path of a binary operator once both operands produced values
(the `match operator.operator() ...` block of `compile_bin_op`). -/
def emitBinOp (k : BinOpKind) (x y : Nat) (cst : CState) (bst : BState) :
    Except String (Option Nat × CState × BState) :=
  let done := fun (i : Inst) =>
    let (v, bst1) := emitInst i bst
    (Except.ok (some v, cst, bst1) :
      Except String (Option Nat × CState × BState))
  match k with
  | .add => done (.iadd x y)
  | .sub => done (.isub x y)
  | .mul => done (.imul x y)
  | .div => done (.udiv x y)
  | .less => done (.icmp .signedLessThan x y)
  | .lessOrEq => done (.icmp .signedLessThanOrEqual x y)
  | .more => done (.icmp .signedGreaterThan x y)
  | .moreOrEq => done (.icmp .signedGreaterThanOrEqual x y)
  | .equal => done (.icmp .equal x y)
  | .notEqual => done (.icmp .notEqual x y)
  | .and => done (.band x y)
  | .or => done (.bor x y)
  | .unsupported => .error "unknown operator"

/-- The text an attrpath attribute contributes to the binding name
(the `match attr` inside the `Expr::LetIn` arm): identifiers and string
attributes render via `.to_string()`, everything else renders as `""`. -/
def attrText : Attr → String
  | .ident s => s
  | .str s => s
  | .dynamic => ""

/-- The flat binding name of an attrpath: the rendered attributes joined
with `"."` (`.collect::<Vec<String>>().join(".")`). -/
def attrsKey (attrs : List Attr) : String :=
  String.intercalate "." (attrs.map attrText)

/-- The fresh `FunctionBuilder` state a lambda's body is compiled in: a
new entry block holding the single I64 block parameter, no declared
variables, no SSA definitions (the enclosing builder's are not visible). -/
def lambdaEntry : BState :=
  { insts := [Inst.funcParam], declaredVars := [], varDefs := [],
    undeclaredDefs := [] }

/-- The `for value in values` loop of the `Expr::LetIn` arm
(`src/src/lib.rs:199`), abstracted over the recursive translator `go`
(instantiated with `compile_expression` at the remaining recursion
budget): for each binding in source order, flatten the attrpath into a
name, compile the value expression, then `declare_variable` and
`def_var`. -/
def compileBindings (go : Expr → CState → BState → Except String (Option Nat × CState × BState)) :
    List AttrpathValue → CState → BState → Except String (CState × BState)
  | [], cst, bst => .ok (cst, bst)
  | .mk path value :: rest, cst, bst =>
    match path with
    | none => .error "failed to get attr path"
    | some attrs =>
      let key := attrsKey attrs
      match value with
      | none => .error "failed to get value"
      | some ve =>
        match go ve cst bst with
        | .error err => .error err
        | .ok (none, _, _) => .error "failed to compile let in value"
        | .ok (some v, cst1, bst1) =>
          match declare_variable cst1 bst1 key with
          | (var, cst2, bst2) => compileBindings go rest cst2 (def_var bst2 var v)

/-- The `for part in string_parts` loop of the `Expr::Str` arm
(`src/src/lib.rs:256`), abstracted over the recursive translator `go`:
literal parts are accumulated; the first interpolation part compiles its
expression and returns that result (`.inl`) for the *whole* string
literal, discarding the accumulator and the remaining parts; if the list
is exhausted the accumulated text is handed back (`.inr`) for the
constant-data path. -/
def compileStrParts (go : Expr → CState → BState → Except String (Option Nat × CState × BState))
    (acc : String) :
    List StrPart → CState → BState →
      Except String ((Option Nat × CState × BState) ⊕ String)
  | [], _, _ => .ok (.inr acc)
  | .literal s :: rest, cst, bst => compileStrParts go (acc ++ s) rest cst bst
  | .interpolation oe :: _, cst, bst =>
    match oe with
    | none => .error "failed to compile interpolation expression"
    | some e =>
      match go e cst bst with
      | .error err => .error err
      | .ok res => .ok (.inl res)

/-- `compile_expression` from `src/src/lib.rs:59`.  `clock i` is the value
`SystemTime::now().elapsed().unwrap().as_nanos()` returns at the `i`-th
sampling — the elapsed time of a `SystemTime` created immediately before
on the same line, in practice 0.  The `Nat` argument is a recursion
budget, an artifact of the embedding: it only bounds the *nesting depth*
of the expression (one unit per `Expr` level; the source recursion is
bounded by the tree), and `exprFuel` below computes a sufficient budget,
so the "recursion limit exceeded" outcome never occurs for a budget of at
least `exprFuel e`. -/
def compile_expression (clock : Nat → Nat) :
    Nat → Expr → CState → BState → Except String (Option Nat × CState × BState)
  | 0, _, _, _ => .error "recursion limit exceeded"
  | fuel + 1, e, cst, bst =>
    match e with
    | .lambda param body =>
      match param with
      | none => .error "failed to get lambda param"
      | some _ =>
        match body with
        | none => .error "failed to get lambda body"
        | some b =>
          let funcName := "lambda_" ++ toString (clock cst.sampleIdx)
          let cst1 := { cst with sampleIdx := cst.sampleIdx + 1 }
          match compile_expression clock fuel b cst1 lambdaEntry with
          | .error err => .error err
          | .ok (none, _, _) => .error "failed to compile lambda body"
          | .ok (some v, cst2, fb) =>
            .ok (none,
                 { cst2 with builtFuncs := cst2.builtFuncs ++
                     [{ name := funcName, insts := fb.insts, ret := v }] },
                 bst)
    | .ident name =>
      match cst.varMap.lookup name with
      | none => .error "failed to get variable"
      | some var =>
        match use_var bst var with
        | .error err => .error err
        | .ok v => .ok (some v, cst, bst)
    | .letIn bindings body =>
      match body with
      | none => .error "failed to get let in body"
      | some b =>
        match compileBindings (compile_expression clock fuel) bindings cst bst with
        | .error err => .error err
        | .ok (cst1, bst1) => compile_expression clock fuel b cst1 bst1
    | .binOp op lhs rhs =>
      match lhs with
      | none => .error "failed to compile left expression"
      | some l =>
        match compile_expression clock fuel l cst bst with
        | .error err => .error err
        | .ok (lv, cst1, bst1) =>
          match rhs with
          | none => .error "failed to compile right expression"
          | some r =>
            match compile_expression clock fuel r cst1 bst1 with
            | .error err => .error err
            | .ok (rv, cst2, bst2) =>
              match lv, rv with
              | some x, some y =>
                match op with
                | none => .error "failed to get operator"
                | some k => emitBinOp k x y cst2 bst2
              | _, _ => .ok (none, cst2, bst2)
    | .lit kind =>
      match compile_literal kind bst with
      | .error err => .error err
      | .ok (v, bst1) => .ok (some v, cst, bst1)
    | .str parts =>
      match compileStrParts (compile_expression clock fuel) "" parts cst bst with
      | .error err => .error err
      | .ok (.inl res) => .ok res
      | .ok (.inr acc) => emitData acc cst bst
    | .unknown => .error "unknown expression"

mutual
/-- A sufficient recursion budget for `compile_expression` on `e`: one
unit per nesting level of the expression tree (list iteration inside one
level consumes none). -/
def exprFuel : Expr → Nat
  | .lambda _ body =>
    1 + (match body with | some b => exprFuel b | none => 0)
  | .ident _ => 1
  | .letIn bs body =>
    1 + Nat.max (bindingsFuel bs)
        (match body with | some b => exprFuel b | none => 0)
  | .binOp _ lhs rhs =>
    1 + Nat.max (match lhs with | some l => exprFuel l | none => 0)
        (match rhs with | some r => exprFuel r | none => 0)
  | .lit _ => 1
  | .str parts => 1 + partsFuel parts
  | .unknown => 1

/-- Budget needed by the value expressions of a binding list. -/
def bindingsFuel : List AttrpathValue → Nat
  | [] => 0
  | .mk _ value :: rest =>
    Nat.max (match value with | some v => exprFuel v | none => 0)
      (bindingsFuel rest)

/-- Budget needed by the interpolation expressions of a part list. -/
def partsFuel : List StrPart → Nat
  | [] => 0
  | .literal _ :: rest => partsFuel rest
  | .interpolation oe :: rest =>
    Nat.max (match oe with | some e => exprFuel e | none => 0)
      (partsFuel rest)
end

/-- The state `Compiler::new` starts from: fresh module, fresh
`DataContext`, `variable_index: 0`, empty `variables`. -/
def initialCState : CState :=
  { sampleIdx := 0, dataDecls := [], dataDefs := [], dataCtx := "",
    builtFuncs := [], variableIndex := 0, varMap := [] }

/-- The `main` function's fresh builder: one created-and-sealed entry
block, no parameters. -/
def initialBState : BState :=
  { insts := [], declaredVars := [], varDefs := [], undeclaredDefs := [] }

/-- A compiled program: the final session state, the `main` function's
builder state, and the `Value` `main` returns. -/
structure Program where
  cstate : CState
  bstate : BState
  ret : Nat
deriving DecidableEq, Repr

/-- The Cranelift value types this translator can produce.  `i8` stands
for the comparison-result type of `icmp` — `b1` before Cranelift 0.90,
`i8` from 0.90 on; in every version this source builds against (it uses
`UserFuncName`, introduced in 0.89, and `DataContext`, removed around
0.95) it is *not* `i64`. -/
inductive IRType where
  | i64
  | f64
  | i8
deriving DecidableEq, Repr

/-- The type of the value an instruction produces, given the types of the
earlier values, with Cranelift's instruction typing rules: the integer
arithmetic and bitwise instructions require two operands of one integer
type and produce that type; `icmp` requires two operands of one integer
type and produces the comparison-result type; `symbol_value` was asked
for the pointer type (I64).  `none` is a type error the IR verifier
reports. -/
def instType (tys : List IRType) : Inst → Option IRType
  | .funcParam => some .i64
  | .iconst _ => some .i64
  | .f64const _ => some .f64
  | .iadd a b | .isub a b | .imul a b | .udiv a b | .band a b | .bor a b => do
    let ta ← tys[a]?
    let tb ← tys[b]?
    if ta = tb ∧ (ta = .i64 ∨ ta = .i8) then some ta else none
  | .icmp _ a b => do
    let ta ← tys[a]?
    let tb ← tys[b]?
    if ta = tb ∧ (ta = .i64 ∨ ta = .i8) then some .i8 else none
  | .symbolValue _ => some .i64

/-- Type every value of a straight-line instruction list in order;
`none` when some instruction is ill-typed. -/
def instTypes (tys : List IRType) : List Inst → Option (List IRType)
  | [] => some tys
  | i :: rest => do
    let t ← instType tys i
    instTypes (tys ++ [t]) rest

/-- The IR verifier run by `define_function` on `main` (Cranelift's
`enable_verifier` setting defaults to true, and `JITBuilder::new` keeps
the default flags): every instruction must be well-typed and the returned
value's type must match the signature's declared `I64` return. -/
def verifyMain (insts : List Inst) (ret : Nat) : Bool :=
  match instTypes [] insts with
  | none => false
  | some tys => tys[ret]? == some .i64

/-- `Compiler::compile` (`src/src/lib.rs:323`): compile the expression into
the fresh `main` function with a sufficient recursion budget; a missing
result is "failed to get return value"; otherwise `main` returns the
single pending value.  Declaring `"main"` cannot fail, but
`define_function` compiles the function with the default-enabled IR
verifier (`verifyMain`): a `main` whose instructions are ill-typed or
whose returned value is not `I64` is rejected there, the `ModuleError`
propagating out of `compile` (modelled by the string
"verifier rejected function"); finalizing the single accepted function
cannot fail. -/
def compileProgram (clock : Nat → Nat) (e : Expr) : Except String Program :=
  match compile_expression clock (exprFuel e) e initialCState initialBState with
  | .error err => .error err
  | .ok (none, _, _) => .error "failed to get return value"
  | .ok (some v, cst, bst) =>
    if verifyMain bst.insts v then .ok { cstate := cst, bstate := bst, ret := v }
    else .error "verifier rejected function"

/-- The i64 bit pattern of an integer (two's complement, mod 2^64). -/
def toBits (n : Int) : Nat :=
  (n % 18446744073709551616).toNat

/-- Read a 64-bit pattern back as a signed integer. -/
def toSigned (x : Nat) : Int :=
  if x < 9223372036854775808 then (x : Int)
  else (x : Int) - 18446744073709551616

/-- Cranelift `icmp` semantics on two 64-bit patterns. -/
def icmpHolds (cc : IntCC) (x y : Nat) : Bool :=
  match cc with
  | .signedLessThan => toSigned x < toSigned y
  | .signedLessThanOrEqual => toSigned x ≤ toSigned y
  | .signedGreaterThan => toSigned y < toSigned x
  | .signedGreaterThanOrEqual => toSigned y ≤ toSigned x
  | .equal => x == y
  | .notEqual => x != y

/-- Execute one instruction given the values of the previous ones, the
function argument, and the backend-chosen address `addr d` of each data
object.  `udiv` by zero is a machine trap (`none`). -/
def evalInst (addr : Nat → Nat) (arg : Nat) (vals : List Nat) :
    Inst → Option Nat
  | .funcParam => some arg
  | .iconst n => some (toBits n)
  | .f64const bits => some (bits % 18446744073709551616)
  | .iadd a b => do
    pure (((← vals[a]?) + (← vals[b]?)) % 18446744073709551616)
  | .isub a b => do
    pure (((← vals[a]?) + (18446744073709551616 - (← vals[b]?))) %
      18446744073709551616)
  | .imul a b => do
    pure (((← vals[a]?) * (← vals[b]?)) % 18446744073709551616)
  | .udiv a b => do
    let x ← vals[a]?
    let y ← vals[b]?
    if y = 0 then none else pure (x / y)
  | .icmp cc a b => do
    pure (if icmpHolds cc (← vals[a]?) (← vals[b]?) then 1 else 0)
  | .band a b => do pure (Nat.land (← vals[a]?) (← vals[b]?))
  | .bor a b => do pure (Nat.lor (← vals[a]?) (← vals[b]?))
  | .symbolValue dataId => some (addr dataId % 18446744073709551616)

/-- Execute a straight-line instruction list, accumulating each
instruction's value; `none` is a trap. -/
def evalInsts (addr : Nat → Nat) (arg : Nat) (vals : List Nat) :
    List Inst → Option (List Nat)
  | [] => some vals
  | i :: rest => do
    let v ← evalInst addr arg vals i
    evalInsts addr arg (vals ++ [v]) rest

/-- Run the JIT-linked `main` of a compiled program: evaluate its
instructions and read off the returned value (`none` is a trap, which
kills the real process). -/
def runProgram (addr : Nat → Nat) (p : Program) : Option Nat := do
  let vals ← evalInsts addr 0 [] p.bstate.insts
  vals[p.ret]?

/-- Compile and immediately execute, as the driver does. -/
def compileAndRun (clock addr : Nat → Nat) (e : Expr) :
    Except String (Option Nat) :=
  (compileProgram clock e).map (runProgram addr)

/-- The clock behaviour actually observed: `SystemTime::now().elapsed()`
measures the time between the `now()` call and the `elapsed()` call on the
same line, which is 0 nanoseconds. -/
def zeroClock : Nat → Nat := fun _ => 0

/-- A binary operation whose operands are two integer literals, the shape
`a op b` of the numeric claims. -/
def binIntExpr (k : BinOpKind) (a b : Int) : Expr :=
  .binOp (some k) (some (.lit (.integer (some a)))) (some (.lit (.integer (some b))))

/-- Spec-side denotation of the arithmetic operators: `a op b` "under
unsigned 64-bit arithmetic", stated on the operands' 64-bit
representations (wrap-around mod 2^64, unsigned integer division). -/
def specArith (k : BinOpKind) (x y : Nat) : Nat :=
  match k with
  | .add => (x + y) % 18446744073709551616
  | .sub => (x + (18446744073709551616 - y)) % 18446744073709551616
  | .mul => (x * y) % 18446744073709551616
  | .div => x / y
  | _ => 0

/-- Spec-side denotation of the comparison predicates on the mathematical
integers denoted by the two i64 literals. -/
def specCmp (k : BinOpKind) (a b : Int) : Bool :=
  match k with
  | .less => decide (a < b)
  | .lessOrEq => decide (a ≤ b)
  | .more => decide (b < a)
  | .moreOrEq => decide (b ≤ a)
  | .equal => decide (a = b)
  | .notEqual => decide (a ≠ b)
  | _ => false

/-- The source program `let x = 1; x = 2; in x`: one name re-declared in a
single `let ... in`. -/
def letRedeclExpr : Expr :=
  .letIn
    [.mk (some [.ident "x"]) (some (.lit (.integer (some 1)))),
     .mk (some [.ident "x"]) (some (.lit (.integer (some 2))))]
    (some (.ident "x"))

/-- The source program `(x: 1) + (y: 2)`: an expression whose translation
builds two distinct lambda functions. -/
def twoLambdasExpr : Expr :=
  .binOp (some .add)
    (some (.lambda (some ()) (some (.lit (.integer (some 1))))))
    (some (.lambda (some ()) (some (.lit (.integer (some 2))))))

theorem compileStrParts_literals
    (go : Expr → CState → BState → Except String (Option Nat × CState × BState))
    (acc : String) (texts : List String) (cst : CState) (bst : BState) :
    compileStrParts go acc (texts.map .literal) cst bst =
      .ok (.inr (texts.foldl (· ++ ·) acc)) := by
  induction texts generalizing acc with
  | nil => rfl
  | cons t ts ih => simpa [compileStrParts] using ih (acc ++ t)

theorem compileStrParts_interp
    (go : Expr → CState → BState → Except String (Option Nat × CState × BState))
    (acc : String) (pre : List String) (e : Expr) (post : List StrPart)
    (cst : CState) (bst : BState) :
    compileStrParts go acc (pre.map .literal ++ .interpolation (some e) :: post)
        cst bst =
      match go e cst bst with
      | .error err => .error err
      | .ok res => .ok (.inl res) := by
  induction pre generalizing acc with
  | nil => rfl
  | cons t ts ih => simpa [compileStrParts] using ih (acc ++ t)

/-- Claim C1: the spec claims re-declaring an already-known name is a no-op
that reuses the existing slot, the new value overwriting that slot's
storage, so that `let x = 1; x = 2; in x` yields 2.  The code disagrees:
`declare_variable` returns `Variable::new(*index)` — the *next free*
index — instead of the variable stored in the map, so the second binding's
value is `def_var`-ed into undeclared variable 1 (tripping Cranelift's
debug assertion in a debug build), the map still sends `x` to variable 0,
and the program compiles and evaluates to 1, not 2. -/
theorem c1_redeclaration_code_bug :
    compileProgram zeroClock letRedeclExpr =
      .ok { cstate := { sampleIdx := 0, dataDecls := [], dataDefs := [],
                        dataCtx := "", builtFuncs := [], variableIndex := 1,
                        varMap := [("x", 0)] },
            bstate := { insts := [.iconst 1, .iconst 2], declaredVars := [0],
                        varDefs := [(1, 1), (0, 0)], undeclaredDefs := [1] },
            ret := 0 } ∧
    compileAndRun zeroClock (fun _ => 0) letRedeclExpr = .ok (some 1) :=
  ⟨rfl, rfl⟩

/-- Claim C4: the spec claims any two distinct lambda translations get
distinct generated function names, unique via a monotonically advancing
timestamp-like counter.  The code samples
`SystemTime::now().elapsed().unwrap().as_nanos()` — the elapsed time of a
`SystemTime` created immediately before on the same line, i.e. 0 — so
translating `(x: 1) + (y: 2)` builds two functions both named
`"lambda_0"`. -/
theorem c4_lambda_names_collide :
    compile_expression zeroClock (exprFuel twoLambdasExpr) twoLambdasExpr
        initialCState initialBState =
      .ok (none,
        { sampleIdx := 2, dataDecls := [], dataDefs := [], dataCtx := "",
          builtFuncs :=
            [{ name := "lambda_0", insts := [.funcParam, .iconst 1], ret := 1 },
             { name := "lambda_0", insts := [.funcParam, .iconst 2], ret := 1 }],
          variableIndex := 0, varMap := [] },
        initialBState) :=
  rfl

theorem compile_expression_binOp (clock : Nat → Nat) (fuel : Nat)
    (op : Option BinOpKind) (lhs rhs : Option Expr) (cst : CState)
    (bst : BState) :
    compile_expression clock (fuel + 1) (.binOp op lhs rhs) cst bst =
      match lhs with
      | none => .error "failed to compile left expression"
      | some l =>
        match compile_expression clock fuel l cst bst with
        | .error err => .error err
        | .ok (lv, cst1, bst1) =>
          match rhs with
          | none => .error "failed to compile right expression"
          | some r =>
            match compile_expression clock fuel r cst1 bst1 with
            | .error err => .error err
            | .ok (rv, cst2, bst2) =>
              match lv, rv with
              | some x, some y =>
                match op with
                | none => .error "failed to get operator"
                | some k => emitBinOp k x y cst2 bst2
              | _, _ => .ok (none, cst2, bst2) := rfl

theorem compile_expression_lambda (clock : Nat → Nat) (fuel : Nat) (b : Expr)
    (cst : CState) (bst : BState) :
    compile_expression clock (fuel + 1) (.lambda (some ()) (some b)) cst bst =
      match compile_expression clock fuel b
          { cst with sampleIdx := cst.sampleIdx + 1 } lambdaEntry with
      | .error err => .error err
      | .ok (none, _, _) => .error "failed to compile lambda body"
      | .ok (some v, cst2, fb) =>
        .ok (none,
             { cst2 with builtFuncs := cst2.builtFuncs ++
                 [{ name := "lambda_" ++ toString (clock cst.sampleIdx),
                    insts := fb.insts, ret := v }] },
             bst) := rfl

theorem compile_expression_ident (clock : Nat → Nat) (fuel : Nat)
    (name : String) (cst : CState) (bst : BState) :
    compile_expression clock (fuel + 1) (.ident name) cst bst =
      match cst.varMap.lookup name with
      | none => .error "failed to get variable"
      | some var =>
        match use_var bst var with
        | .error err => .error err
        | .ok v => .ok (some v, cst, bst) := rfl

theorem compile_expression_letIn (clock : Nat → Nat) (fuel : Nat)
    (bs : List AttrpathValue) (b : Expr) (cst : CState) (bst : BState) :
    compile_expression clock (fuel + 1) (.letIn bs (some b)) cst bst =
      match compileBindings (compile_expression clock fuel) bs cst bst with
      | .error err => .error err
      | .ok (cst1, bst1) => compile_expression clock fuel b cst1 bst1 := rfl

theorem compile_expression_str (clock : Nat → Nat) (fuel : Nat)
    (parts : List StrPart) (cst : CState) (bst : BState) :
    compile_expression clock (fuel + 1) (.str parts) cst bst =
      match compileStrParts (compile_expression clock fuel) "" parts cst bst with
      | .error err => .error err
      | .ok (.inl res) => .ok res
      | .ok (.inr acc) => emitData acc cst bst := rfl

theorem compile_expression_lit (clock : Nat → Nat) (fuel : Nat)
    (kind : LiteralKind) (cst : CState) (bst : BState) :
    compile_expression clock (fuel + 1) (.lit kind) cst bst =
      match compile_literal kind bst with
      | .error err => .error err
      | .ok (v, bst1) => .ok (some v, cst, bst1) := rfl

theorem use_var_error_msg (bst : BState) (var : Nat) (e : String)
    (h : use_var bst var = .error e) :
    e = "panicked: variable used before it was defined" ∨
    e = "panicked: variable declared in another function builder" := by
  unfold use_var at h
  split at h
  · split at h <;> simp_all
  · simp_all

/-- Claim C3: translating a (well-formed) lambda fails with
`EmptyLambdaBody` ("failed to compile lambda body") exactly when the body,
compiled in the new function's fresh builder with the shared session
state, yields no value; an error of the body translation propagates as
that error instead; and when the body yields value `v` the built function
returns `v` while the lambda expression itself contributes no value
(`none`) to its enclosing expression, the enclosing builder untouched. -/
theorem c3_lambda (clock : Nat → Nat) (fuel : Nat) (body : Expr)
    (cst : CState) (bst : BState) :
    (∀ err, compile_expression clock fuel body
        { cst with sampleIdx := cst.sampleIdx + 1 } lambdaEntry = .error err →
      compile_expression clock (fuel + 1) (.lambda (some ()) (some body)) cst bst =
        .error err) ∧
    (∀ cst2 fb, compile_expression clock fuel body
        { cst with sampleIdx := cst.sampleIdx + 1 } lambdaEntry =
          .ok (none, cst2, fb) →
      compile_expression clock (fuel + 1) (.lambda (some ()) (some body)) cst bst =
        .error "failed to compile lambda body") ∧
    (∀ v cst2 fb, compile_expression clock fuel body
        { cst with sampleIdx := cst.sampleIdx + 1 } lambdaEntry =
          .ok (some v, cst2, fb) →
      compile_expression clock (fuel + 1) (.lambda (some ()) (some body)) cst bst =
        .ok (none,
          { cst2 with builtFuncs := cst2.builtFuncs ++
              [{ name := "lambda_" ++ toString (clock cst.sampleIdx),
                 insts := fb.insts, ret := v }] },
          bst)) := by
  refine ⟨?_, ?_, ?_⟩
  · intro err h
    rw [compile_expression_lambda, h]
  · intro cst2 fb h
    rw [compile_expression_lambda, h]
  · intro v cst2 fb h
    rw [compile_expression_lambda, h]

/-- Claim C3 witness: `x: 7` builds a function returning the body's value
and contributes no value itself; `x: (y: 1)` (body yields no value) fails
with "failed to compile lambda body". -/
theorem c3_lambda_witness :
    compile_expression zeroClock 2
        (.lambda (some ()) (some (.lit (.integer (some 7)))))
        initialCState initialBState =
      .ok (none,
        { sampleIdx := 1, dataDecls := [], dataDefs := [], dataCtx := "",
          builtFuncs := [{ name := "lambda_0", insts := [.funcParam, .iconst 7],
                           ret := 1 }],
          variableIndex := 0, varMap := [] },
        initialBState) ∧
    compile_expression zeroClock 3
        (.lambda (some ())
          (some (.lambda (some ()) (some (.lit (.integer (some 1)))))))
        initialCState initialBState =
      .error "failed to compile lambda body" := by
  constructor
  · have h := (c3_lambda zeroClock 1 (.lit (.integer (some 7)))
      initialCState initialBState).2.2 1
      { sampleIdx := 1, dataDecls := [], dataDefs := [], dataCtx := "",
        builtFuncs := [], variableIndex := 0, varMap := [] }
      { insts := [.funcParam, .iconst 7], declaredVars := [], varDefs := [],
        undeclaredDefs := [] } rfl
    simpa using h
  · have h := (c3_lambda zeroClock 2
      (.lambda (some ()) (some (.lit (.integer (some 1)))))
      initialCState initialBState).2.1
      { sampleIdx := 2, dataDecls := [], dataDefs := [], dataCtx := "",
        builtFuncs := [{ name := "lambda_0", insts := [.funcParam, .iconst 1],
                         ret := 1 }],
        variableIndex := 0, varMap := [] }
      lambdaEntry rfl
    simpa using h

/-- Claim C9: translating an identifier fails with `UnboundIdentifier`
("failed to get variable") precisely when the name is absent from the
shared variable map; the identifier arm never emits an instruction or
changes any state (so in particular the failure happens before any
emission); and when the name maps to a variable whose current value in
this builder is `v`, that value is returned. -/
theorem c9_identifier (clock : Nat → Nat) (fuel : Nat) (name : String)
    (cst : CState) (bst : BState) :
    (compile_expression clock (fuel + 1) (.ident name) cst bst =
        .error "failed to get variable" ↔ cst.varMap.lookup name = none) ∧
    (∀ v2 cst2 bst2,
      compile_expression clock (fuel + 1) (.ident name) cst bst =
          .ok (v2, cst2, bst2) → cst2 = cst ∧ bst2 = bst) ∧
    (∀ var v, cst.varMap.lookup name = some var → use_var bst var = .ok v →
      compile_expression clock (fuel + 1) (.ident name) cst bst =
        .ok (some v, cst, bst)) := by
  rw [compile_expression_ident]
  rcases h : cst.varMap.lookup name with _ | var
  · simp
  · refine ⟨?_, ?_, ?_⟩
    · rcases h2 : use_var bst var with err | v
      · rcases use_var_error_msg bst var err h2 with he | he <;> simp [h2, he]
      · simp [h2]
    · intro v2 cst2 bst2 hok
      rcases h2 : use_var bst var with err | v
      · simp [h2] at hok
      · simp [h2] at hok
        exact ⟨hok.2.1.symm, hok.2.2.symm⟩
    · intro var2 v hvar hu
      injection hvar with hvar
      rw [← hvar] at hu
      simp [hu]

/-- Claim C9 witness: with `x` bound to variable 0 whose current value is
the instruction-0 value, translating `x` returns it and leaves the states
unchanged; translating `y` in the fresh session fails with "failed to get
variable". -/
theorem c9_identifier_witness :
    compile_expression zeroClock 1 (.ident "x")
        { sampleIdx := 0, dataDecls := [], dataDefs := [], dataCtx := "",
          builtFuncs := [], variableIndex := 1, varMap := [("x", 0)] }
        { insts := [.iconst 5], declaredVars := [0], varDefs := [(0, 0)],
          undeclaredDefs := [] } =
      .ok (some 0,
        { sampleIdx := 0, dataDecls := [], dataDefs := [], dataCtx := "",
          builtFuncs := [], variableIndex := 1, varMap := [("x", 0)] },
        { insts := [.iconst 5], declaredVars := [0], varDefs := [(0, 0)],
          undeclaredDefs := [] }) ∧
    compile_expression zeroClock 1 (.ident "y") initialCState initialBState =
      .error "failed to get variable" := by
  constructor
  · exact (c9_identifier zeroClock 0 "x" _ _).2.2 0 0 rfl rfl
  · exact (c9_identifier zeroClock 0 "y" initialCState initialBState).1.mpr rfl

/-- Claim C10: a `let ... in` binding whose attrpath has several
attributes, or attributes that are neither identifiers nor strings, does
not fail: the attrpath is flattened to the single name `attrsKey attrs`
(each attribute rendered to text, other kinds rendering as "", joined
with "."), that flat name is bound in the shared variable map, and the
whole program compiles and runs to the bound value. -/
theorem c10_attrpath_flattened (attrs : List Attr) (n : Int)
    (clock addr : Nat → Nat) :
    compileProgram clock
        (.letIn [.mk (some attrs) (some (.lit (.integer (some n))))]
          (some (.ident (attrsKey attrs)))) =
      .ok { cstate := { sampleIdx := 0, dataDecls := [], dataDefs := [],
                        dataCtx := "", builtFuncs := [], variableIndex := 1,
                        varMap := [(attrsKey attrs, 0)] },
            bstate := { insts := [.iconst n], declaredVars := [0],
                        varDefs := [(0, 0)], undeclaredDefs := [] },
            ret := 0 } ∧
    compileAndRun clock addr
        (.letIn [.mk (some attrs) (some (.lit (.integer (some n))))]
          (some (.ident (attrsKey attrs)))) = .ok (some (toBits n)) := by
  have h0 : exprFuel (.letIn [.mk (some attrs) (some (.lit (.integer (some n))))]
      (some (.ident (attrsKey attrs)))) = 1 + 1 := rfl
  have hbind : compileBindings (compile_expression clock 1)
      [.mk (some attrs) (some (.lit (.integer (some n))))]
      initialCState initialBState =
      .ok ({ sampleIdx := 0, dataDecls := [], dataDefs := [], dataCtx := "",
             builtFuncs := [], variableIndex := 1,
             varMap := [(attrsKey attrs, 0)] },
           { insts := [.iconst n], declaredVars := [0], varDefs := [(0, 0)],
             undeclaredDefs := [] }) := rfl
  have hident : compile_expression clock 1 (.ident (attrsKey attrs))
      { sampleIdx := 0, dataDecls := [], dataDefs := [], dataCtx := "",
        builtFuncs := [], variableIndex := 1, varMap := [(attrsKey attrs, 0)] }
      { insts := [.iconst n], declaredVars := [0], varDefs := [(0, 0)],
        undeclaredDefs := [] } =
      .ok (some 0,
        { sampleIdx := 0, dataDecls := [], dataDefs := [], dataCtx := "",
          builtFuncs := [], variableIndex := 1, varMap := [(attrsKey attrs, 0)] },
        { insts := [.iconst n], declaredVars := [0], varDefs := [(0, 0)],
          undeclaredDefs := [] }) := by
    have h := compile_expression_ident clock 0 (attrsKey attrs)
      { sampleIdx := 0, dataDecls := [], dataDefs := [], dataCtx := "",
        builtFuncs := [], variableIndex := 1, varMap := [(attrsKey attrs, 0)] }
      { insts := [.iconst n], declaredVars := [0], varDefs := [(0, 0)],
        undeclaredDefs := [] }
    simp only [Nat.zero_add] at h
    rw [h]
    simp [List.lookup, use_var, List.contains]
  have h1 : compileProgram clock
      (.letIn [.mk (some attrs) (some (.lit (.integer (some n))))]
        (some (.ident (attrsKey attrs)))) =
      .ok { cstate := { sampleIdx := 0, dataDecls := [], dataDefs := [],
                        dataCtx := "", builtFuncs := [], variableIndex := 1,
                        varMap := [(attrsKey attrs, 0)] },
            bstate := { insts := [.iconst n], declaredVars := [0],
                        varDefs := [(0, 0)], undeclaredDefs := [] },
            ret := 0 } := by
    have hv : verifyMain [Inst.iconst n] 0 = true := rfl
    simp only [compileProgram, h0, compile_expression_letIn, hbind, hident, hv,
      if_true]
  refine ⟨h1, ?_⟩
  simp only [compileAndRun, h1, Except.map]
  rfl

/-- Claim C2: translating a string-literal node walks its parts in order;
with the first interpolation part present (after any prefix of literal
parts), the whole node's translation equals the translation of that
interpolation's expression — the accumulated text and all later parts are
discarded and no data object is touched; with no interpolation part, the
concatenated text is committed through the constant-data path and the
address value of the new object is returned (shown here from a module
with no data yet). -/
theorem c2_string_literal (clock : Nat → Nat) (fuel : Nat) (cst : CState)
    (bst : BState) :
    (∀ (pre : List String) (e : Expr) (post : List StrPart),
      compile_expression clock (fuel + 1)
          (.str (pre.map .literal ++ .interpolation (some e) :: post)) cst bst =
        compile_expression clock fuel e cst bst) ∧
    (∀ texts : List String, cst.dataDecls = [] → cst.dataDefs = [] →
      compile_expression clock (fuel + 1) (.str (texts.map .literal)) cst bst =
        .ok (some bst.insts.length,
          { cst with dataDecls := ["string"],
                     dataDefs := [(0, texts.foldl (· ++ ·) "")],
                     dataCtx := "" },
          { bst with insts := bst.insts ++ [.symbolValue 0] })) := by
  constructor
  · intro pre e post
    rw [compile_expression_str, compileStrParts_interp]
    rcases h : compile_expression clock fuel e cst bst with err | res <;> simp [h]
  · intro texts h1 h2
    rw [compile_expression_str, compileStrParts_literals]
    simp [emitData, declare_data, define_data, emitInst, h1, h2]

/-- Claim C2 witness: `"a${2}b"` translates exactly as the interpolated
expression `2` does; `"hello"` (two literal parts) becomes one data object
with bytes "hello" whose address is returned. -/
theorem c2_string_literal_witness :
    compile_expression zeroClock 2
        (.str [.literal "a",
               .interpolation (some (.lit (.integer (some 2)))),
               .literal "b"])
        initialCState initialBState =
      compile_expression zeroClock 1 (.lit (.integer (some 2)))
        initialCState initialBState ∧
    compile_expression zeroClock 1 (.str [.literal "he", .literal "llo"])
        initialCState initialBState =
      .ok (some 0,
        { sampleIdx := 0, dataDecls := ["string"], dataDefs := [(0, "hello")],
          dataCtx := "", builtFuncs := [], variableIndex := 0, varMap := [] },
        { insts := [.symbolValue 0], declaredVars := [], varDefs := [],
          undeclaredDefs := [] }) := by
  constructor
  · exact (c2_string_literal zeroClock 1 initialCState initialBState).1
      ["a"] (.lit (.integer (some 2))) [.literal "b"]
  · exact (c2_string_literal zeroClock 0 initialCState initialBState).2
      ["he", "llo"] rfl rfl

/-- Claim C5: the constant-data path declares every object under the one
exported symbol name "string" and never deduplicates: a single string
literal yields one object named "string" holding its text; a program with
two interpolation-free string literals — even with identical content —
fails on the second emission, rejected by the backend with
"failed to define data" (Cranelift merges the second declaration of
"string" into the same object and refuses the duplicate definition)
instead of reusing the first object's address. -/
theorem c5_constant_data (s s1 s2 : String) :
    compileProgram zeroClock (.str [.literal s]) =
      .ok { cstate := { sampleIdx := 0, dataDecls := ["string"],
                        dataDefs := [(0, s)], dataCtx := "", builtFuncs := [],
                        variableIndex := 0, varMap := [] },
            bstate := { insts := [.symbolValue 0], declaredVars := [],
                        varDefs := [], undeclaredDefs := [] }, ret := 0 } ∧
    compileProgram zeroClock
        (.binOp (some .add)
          (some (.str [.literal s1])) (some (.str [.literal s2]))) =
      .error "failed to define data" := by
  constructor
  · have h0 : exprFuel (.str [.literal s]) = 0 + 1 := rfl
    have h := compile_expression_str zeroClock 0 [.literal s]
      initialCState initialBState
    rw [show [StrPart.literal s] = [s].map .literal from rfl,
       compileStrParts_literals] at h
    simp at h
    simp only [compileProgram, h0, Nat.zero_add, h]
    simp [emitData, declare_data, define_data, emitInst, initialCState,
      initialBState, verifyMain, instTypes, instType]
  · rfl

/-- Claim C6: for i64 literals `a` and `b` and each arithmetic operator,
compiling `a op b` and executing yields `a op b` under unsigned 64-bit
arithmetic on the operands' two's-complement representations — wrap-around
addition, subtraction and multiplication, and *unsigned* integer division
(there is no signed-division path; division requires a non-zero divisor
representation, since `udiv` by zero traps). -/
theorem c6_arithmetic (clock addr : Nat → Nat) (k : BinOpKind) (a b : Int)
    (hk : k = .add ∨ k = .sub ∨ k = .mul ∨ k = .div)
    (hdiv : k = .div → toBits b ≠ 0) :
    compileAndRun clock addr (binIntExpr k a b) =
      .ok (some (specArith k (toBits a) (toBits b))) := by
  rcases hk with rfl | rfl | rfl | rfl
  · rfl
  · rfl
  · rfl
  · have hb := hdiv rfl
    have hprog : compileProgram clock (binIntExpr .div a b) =
        .ok { cstate := initialCState,
              bstate := { insts := [.iconst a, .iconst b, .udiv 0 1],
                          declaredVars := [], varDefs := [],
                          undeclaredDefs := [] },
              ret := 2 } := rfl
    simp only [compileAndRun, hprog, Except.map, runProgram, evalInsts, evalInst]
    simp [hb, specArith]

/-- Claim C6 witness: `7 / 2` compiles to an unsigned division and runs
to `3`. -/
theorem c6_arithmetic_witness :
    compileAndRun zeroClock (fun _ => 0) (binIntExpr .div 7 2) =
      .ok (some 3) := by
  have h := c6_arithmetic zeroClock (fun _ => 0) .div 7 2
    (Or.inr (Or.inr (Or.inr rfl))) (fun _ => by decide)
  exact h

/-- Claim C7 (code bug): the claim — and the spec's section 8 testable
property — says translating a comparison and executing it yields the
boolean-as-integer 1/0.  The translator does compile the ordering
operators with *signed* condition codes (first conjunct), but `icmp`
produces a value of the comparison-result type (b1/i8), `main`'s
signature declares an `I64` return, and Cranelift's default-enabled IR
verifier therefore rejects the function at `define_function`: the driver
fails before anything is executed, for every comparison operator and all
operands, so no executed 1/0 result ever exists. -/
theorem c7_comparisons_rejected (clock addr : Nat → Nat) (a b : Int) :
    compile_expression clock 2 (binIntExpr .less a b)
        initialCState initialBState =
      .ok (some 2, initialCState,
        { insts := [.iconst a, .iconst b, .icmp .signedLessThan 0 1],
          declaredVars := [], varDefs := [], undeclaredDefs := [] }) ∧
    verifyMain [.iconst a, .iconst b, .icmp .signedLessThan 0 1] 2 = false ∧
    compileProgram clock (binIntExpr .less a b) =
      .error "verifier rejected function" ∧
    compileProgram clock (binIntExpr .lessOrEq a b) =
      .error "verifier rejected function" ∧
    compileProgram clock (binIntExpr .more a b) =
      .error "verifier rejected function" ∧
    compileProgram clock (binIntExpr .moreOrEq a b) =
      .error "verifier rejected function" ∧
    compileProgram clock (binIntExpr .equal a b) =
      .error "verifier rejected function" ∧
    compileProgram clock (binIntExpr .notEqual a b) =
      .error "verifier rejected function" ∧
    compileAndRun clock addr (binIntExpr .less a b) =
      .error "verifier rejected function" :=
  ⟨rfl, rfl, rfl, rfl, rfl, rfl, rfl, rfl, rfl⟩

/-- Claim C8: for `a and b` / `a or b` both operands are always translated,
the left fully before the right (the right from the state the left
produced), with no short-circuiting, and the result instruction is the
bitwise AND respectively OR of the two operand values; executing on
integer literals yields `Nat.land` / `Nat.lor` of their representations;
and because the right operand is always evaluated, `a and (1 / 0)` traps
at run time for *every* `a` — including `a = 0`, where short-circuit
evaluation would have returned 0. -/
theorem c8_logical (clock addr : Nat → Nat) :
    (∀ (fuel : Nat) (e1 e2 : Expr) (cst : CState) (bst : BState),
      compile_expression clock (fuel + 1) (.binOp (some .and) (some e1) (some e2))
          cst bst =
        match compile_expression clock fuel e1 cst bst with
        | .error err => .error err
        | .ok (lv, cst1, bst1) =>
          match compile_expression clock fuel e2 cst1 bst1 with
          | .error err => .error err
          | .ok (rv, cst2, bst2) =>
            match lv, rv with
            | some x, some y =>
              .ok (some bst2.insts.length, cst2,
                   { bst2 with insts := bst2.insts ++ [.band x y] })
            | _, _ => .ok (none, cst2, bst2)) ∧
    (∀ (fuel : Nat) (e1 e2 : Expr) (cst : CState) (bst : BState),
      compile_expression clock (fuel + 1) (.binOp (some .or) (some e1) (some e2))
          cst bst =
        match compile_expression clock fuel e1 cst bst with
        | .error err => .error err
        | .ok (lv, cst1, bst1) =>
          match compile_expression clock fuel e2 cst1 bst1 with
          | .error err => .error err
          | .ok (rv, cst2, bst2) =>
            match lv, rv with
            | some x, some y =>
              .ok (some bst2.insts.length, cst2,
                   { bst2 with insts := bst2.insts ++ [.bor x y] })
            | _, _ => .ok (none, cst2, bst2)) ∧
    (∀ a b : Int, compileAndRun clock addr (binIntExpr .and a b) =
      .ok (some (Nat.land (toBits a) (toBits b)))) ∧
    (∀ a b : Int, compileAndRun clock addr (binIntExpr .or a b) =
      .ok (some (Nat.lor (toBits a) (toBits b)))) ∧
    (∀ a : Int, compileAndRun clock addr
        (.binOp (some .and) (some (.lit (.integer (some a))))
          (some (binIntExpr .div 1 0))) = .ok none) := by
  refine ⟨?_, ?_, fun a b => rfl, fun a b => rfl, fun a => rfl⟩
  · intro fuel e1 e2 cst bst
    rw [compile_expression_binOp]
    rcases h1 : compile_expression clock fuel e1 cst bst with err | ⟨lv, cst1, bst1⟩
    · simp [h1]
    · rcases h2 : compile_expression clock fuel e2 cst1 bst1 with err | ⟨rv, cst2, bst2⟩
      · simp [h1, h2]
      · rcases lv with _ | x <;> rcases rv with _ | y <;>
          simp [h1, h2, emitBinOp, emitInst]
  · intro fuel e1 e2 cst bst
    rw [compile_expression_binOp]
    rcases h1 : compile_expression clock fuel e1 cst bst with err | ⟨lv, cst1, bst1⟩
    · simp [h1]
    · rcases h2 : compile_expression clock fuel e2 cst1 bst1 with err | ⟨rv, cst2, bst2⟩
      · simp [h1, h2]
      · rcases lv with _ | x <;> rcases rv with _ | y <;>
          simp [h1, h2, emitBinOp, emitInst]
